import Mathlib

/-!
Verification of the OSPRay Studio renderer plugin of the FreeCAD Render
workbench (`Render/renderers/Ospray.py`).

The development shallowly embeds the plugin's pure data transformations:

* the material dispatcher and its diffuse fallback (`_write_material`,
  `_write_material_fallback`, the `MATERIALS` table);
* the per-property value writer and its field-renaming table
  (`_write_value`, `_FIELD_MAPPING`);
* the two render-time scene-graph post-processing passes
  (`_render_keep1cam`, `_render_mergelightgroups`);
* the command builder / output-path reconstruction (`render`);
* the area-light material computation (`write_arealight`) and the
  sun-sky light angle computations (`write_sunskylight`).

Modelling conventions:

* Python floats are modelled as rationals (`ℚ`); the trigonometric
  computations of the sun-sky writer are modelled over `ℝ`.
* Colors are modelled by the triple of linear RGB components returned by
  the external color abstraction's `to_linear()`; that abstraction is an
  out-of-scope collaborator of the module.
* File side effects are modelled as data: `render` returns the scene
  document it writes back together with the command and output path.
* Python's textual float rendering (`str`, `"{:.8}"` formatting) is
  modelled by `floatRepr`; the exact decimal digits are never load-bearing
  for the properties proved here, only the structure of the emitted lines.
-/

namespace Ospray

/-- Stand-in for Python's textual rendering of a float (both `str(x)` and
`"{x:.8}"`). The claims under verification compare numeric payloads and
line structure, never decimal digit strings, so an exact rendering of the
value is used. -/
def floatRepr (q : ℚ) : String := toString q

/-- Clamping into [0,1]; used only to state the spec's words about the
fallback material ("clamped into [0,1]") for comparison with the code. -/
def clamp01 (x : ℚ) : ℚ := max 0 (min x 1)

/-- A color, represented by the linear RGB components that the external
color abstraction's `to_linear()` returns (the abstraction itself is an
out-of-scope collaborator of the module). -/
structure Color where
  r : ℚ
  g : ℚ
  b : ℚ
deriving DecidableEq

/-- The untyped `matval` parameter of `_write_material_fallback`. The
function's body reads the `default_color` attribute of its argument, so
the argument's relevant shape is whether it exposes that attribute: a
material-value bundle does (its `default_color` is a color), while a
color object does not. The only call site (Ospray.py line 598) passes
`matval.default_color` — the already-extracted color — so only the
`colorLike` case is ever reached there. -/
inductive FallbackArg where
  | bundleLike (default_color : Color)
  | colorLike (c : Color)

/-- `getattr(x, "default_color")`: a bundle-like argument exposes the
attribute; a color does not (`none` models the AttributeError). -/
def getDefaultColor : FallbackArg → Option Color
  | .bundleLike c => some c
  | .colorLike _ => none

/-- The `kd` components computed by `_write_material_fallback`
(Ospray.py lines 736-743): the try-block reads
`matval.default_color.to_linear()` and asserts each component lies in
[0,1]; any failure (the AttributeError from reading `default_color` on a
color, or a failed assertion) lands in the except clause, which yields
(1, 1, 1). -/
def fallback_rgb (arg : FallbackArg) : ℚ × ℚ × ℚ :=
  match getDefaultColor arg with
  | none => (1, 1, 1)
  | some c =>
      if 0 ≤ c.r ∧ c.r ≤ 1 ∧ 0 ≤ c.g ∧ c.g ≤ 1 ∧ 0 ≤ c.b ∧ c.b ≤ 1 then
        (c.r, c.g, c.b)
      else (1, 1, 1)

/-- `_write_material_fallback` (Ospray.py lines 731-750): a simple diffuse
("type obj") material template with a `kd` line. The `{n}` argument of the
source's `format` call is unused by the template. -/
def _write_material_fallback (_name : String) (arg : FallbackArg) : String :=
  let rgb := fallback_rgb arg
  "\n# Fallback\ntype obj\nkd " ++ floatRepr rgb.1 ++ " " ++ floatRepr rgb.2.1
    ++ " " ++ floatRepr rgb.2.2 ++ "\nns 2\n"

/-- What the spec's words would produce: the default color clamped
componentwise into [0,1] (stated for comparison with `fallback_rgb`). -/
def fallback_rgb_clamped (c : Color) : ℚ × ℚ × ℚ :=
  (clamp01 c.r, clamp01 c.g, clamp01 c.b)

/-- A sub-material bundle, as returned by `matval.getmixedsubmat`:
indexed pre-formatted strings plus the result of `write_textures()`.
The material-value abstraction is an external collaborator; it is modelled
as a capability record of pre-formatted strings, as the spec describes. -/
structure SubMatVal where
  entry : String → String
  textures : String

/-- The material-value bundle consumed by the material templates: shader
type name, default color, indexed pre-formatted per-property strings
(`matval["..."]`), the `has_normal()` flag, the `write_textures()` output,
and the extra capabilities used by the Passthrough and Mixed templates. -/
structure MatVal where
  shadertype : String
  default_color : Color
  entry : String → String
  has_normal : Bool
  textures : String
  passthrough_texture : String
  mixedTransparency : ℚ
  submatGlass : SubMatVal
  submatDiffuse : SubMatVal

/-- Disney index of refraction constant (`DISNEY_IOR = 1.5`). -/
def DISNEY_IOR : ℚ := 3 / 2

/-- `_write_material_passthrough` (lines 609-615). The source additionally
runs Python `str.format` on the user-provided text to substitute the
`n`/`c`/`tex` placeholders; that external string templating is not
modelled (no claim depends on the Passthrough template's content). -/
def _write_material_passthrough (_name : String) (mv : MatVal) : String :=
  "\n# Passthrough\n" ++ mv.entry "string"

/-- `_write_material_glass` (lines 618-632). -/
def _write_material_glass (_name : String) (mv : MatVal) : String :=
  "\n# Glass\ntype principled\n" ++ mv.entry "ior" ++ "\n" ++ mv.entry "color"
    ++ "\ntransmission 1\nspecular 1\nmetallic 0\ndiffuse 0\nopacity 1\n"
    ++ (if mv.has_normal then mv.entry "normal" else "") ++ "\n"

/-- `_write_material_disney` (lines 635-658). -/
def _write_material_disney (_name : String) (mv : MatVal) : String :=
  "\n# Disney\ntype principled\n" ++ mv.entry "basecolor"
    ++ "\n# No subsurface scattering (Ospray limitation)\n"
    ++ mv.entry "metallic" ++ "\n" ++ mv.entry "specular"
    ++ "\n# No specular tint (Ospray limitation)\n"
    ++ mv.entry "roughness" ++ "\n" ++ mv.entry "anisotropic" ++ "\n"
    ++ mv.entry "sheen" ++ "\n" ++ mv.entry "sheentint" ++ "\n"
    ++ mv.entry "clearcoat" ++ "\n" ++ mv.entry "clearcoatgloss" ++ "\n"
    ++ (if mv.has_normal then mv.entry "normal" else "")
    ++ "\nior " ++ floatRepr DISNEY_IOR ++ "\ncoatIor " ++ floatRepr DISNEY_IOR ++ "\n"

/-- `_write_material_pbr` (lines 661-675). -/
def _write_material_pbr (name : String) (mv : MatVal) : String :=
  "\n# Pbr ('" ++ name ++ "')\ntype principled\n" ++ mv.entry "basecolor"
    ++ "\n# No subsurface scattering (Ospray limitation)\n"
    ++ mv.entry "metallic" ++ "\n" ++ mv.entry "specular" ++ "\n"
    ++ mv.entry "roughness" ++ "\n"
    ++ (if mv.has_normal then mv.entry "normal" else "") ++ "\n"

/-- `_write_material_diffuse` (lines 678-689). -/
def _write_material_diffuse (_name : String) (mv : MatVal) : String :=
  "\n# Diffuse\ntype principled\n" ++ mv.entry "color"
    ++ "\nmetallic 0\nspecular 0\ndiffuse 1\n"
    ++ (if mv.has_normal then mv.entry "normal" else "") ++ "\n"

/-- `_write_material_mixed` (lines 692-717): blends the diffuse and glass
sub-material bundles by the transparency factor. -/
def _write_material_mixed (_name : String) (mv : MatVal) : String :=
  let submat_g := mv.submatGlass
  let snippet_g_tex := submat_g.textures
  let submat_d := mv.submatDiffuse
  let snippet_d_tex := submat_d.textures
  let transparency := mv.mixedTransparency
  let snippet_mix :=
    "\n# Mixed\ntype principled\n" ++ submat_d.entry "color" ++ "\n"
      ++ submat_g.entry "ior" ++ "\ntransmission " ++ floatRepr transparency
      ++ "\n" ++ submat_g.entry "color" ++ "\nopacity "
      ++ floatRepr (1 - transparency) ++ "\nspecular 0.5\n"
      ++ (if mv.has_normal then mv.entry "normal" else "") ++ "\n"
  snippet_mix ++ snippet_d_tex ++ snippet_g_tex

/-- `_write_material_carpaint` (lines 720-728). -/
def _write_material_carpaint (_name : String) (mv : MatVal) : String :=
  "\n# Carpaint\ntype carPaint\n" ++ mv.entry "basecolor" ++ "\n"
    ++ (if mv.has_normal then mv.entry "normal" else "") ++ "\n"

/-- `_write_material_emission` (lines 753-762). -/
def _write_material_emission (name : String) (mv : MatVal) : String :=
  "\n# Emission ('" ++ name ++ "')\ntype luminous\n" ++ mv.entry "color"
    ++ "\n" ++ mv.entry "power" ++ "\ntransparency 0.0\n"

/-- The `MATERIALS` dispatch table (lines 765-774). -/
def MATERIALS : List (String × (String → MatVal → String)) :=
  [("Passthrough", _write_material_passthrough),
   ("Glass", _write_material_glass),
   ("Disney", _write_material_disney),
   ("Diffuse", _write_material_diffuse),
   ("Mixed", _write_material_mixed),
   ("Carpaint", _write_material_carpaint),
   ("Substance_PBR", _write_material_pbr),
   ("Emission", _write_material_emission)]

/-- `_write_material` (lines 584-606): dispatch on the shader type, with
the diffuse fallback (and a printed warning, not modelled) on a `KeyError`
for an unknown shader type. Line 598 passes `matval.default_color` — the
already-extracted color, not the bundle — into the fallback, whose
re-read of `.default_color` therefore raises AttributeError inside its
try-block. For a known type, the template output and the
`write_textures()` output are concatenated. -/
def _write_material (name : String) (matval : MatVal) : String :=
  match MATERIALS.lookup matval.shadertype with
  | none => _write_material_fallback name (.colorLike matval.default_color)
  | some material_function => material_function name matval ++ matval.textures

/-- The `_FIELD_MAPPING` table (lines 783-814). A key present with value
`none` models Python's `None` (property excluded); `some s` models a
rename to `s` (possibly the empty string). -/
def _FIELD_MAPPING : List ((String × String) × Option String) :=
  [(("Diffuse", "color"), some "baseColor"),
   (("Diffuse", "bump"), none),
   (("Diffuse", "displacement"), none),
   (("Substance_PBR", "basecolor"), some "baseColor"),
   (("Substance_PBR", "bump"), none),
   (("Disney", "basecolor"), some "baseColor"),
   (("Disney", "subsurface"), some ""),
   (("Disney", "speculartint"), some ""),
   (("Disney", "anisotropic"), some "anisotropy"),
   (("Disney", "sheentint"), some "sheenTint"),
   (("Disney", "clearcoat"), some "coat"),
   (("Disney", "clearcoatgloss"), some "coatRoughness"),
   (("Disney", "bump"), none),
   (("Disney", "displacement"), none),
   (("Glass", "color"), some "transmissionColor"),
   (("Glass", "ior"), some "ior"),
   (("Glass", "bump"), none),
   (("Glass", "displacement"), none),
   (("Carpaint", "basecolor"), some "baseColor"),
   (("Mixed", "transparency"), some "transmission"),
   (("Mixed", "diffuse"), some ""),
   (("Mixed", "shader"), some ""),
   (("Mixed", "glass"), some ""),
   (("Mixed", "bump"), none),
   (("Mixed", "displacement"), none),
   (("glass", "color"), some "transmissionColor"),
   (("diffuse", "color"), some "baseColor"),
   (("Emission", "power"), some "intensity"),
   (("Passthrough", "string"), some ""),
   (("Passthrough", "renderer"), some "")]

/-- Raw table lookup: `_FIELD_MAPPING.get((shadertype, propname))`. -/
def lookupFM (shadertype propname : String) : Option (Option String) :=
  _FIELD_MAPPING.lookup (shadertype, propname)

/-- `_FIELD_MAPPING.get((shadertype, propname), propname)`: the resolved
field name; `none` models Python's `None` (excluded property). -/
def fieldFor (shadertype propname : String) : Option String :=
  match lookupFM shadertype propname with
  | some v => v
  | none => some propname

/-- The `metallic` entry of `matval.material.shaderproperties`, as tested
by the `specular` special case: either a texture object (detected through
`hasattr(metallic, "is_texture")`) or a float-convertible value. -/
inductive MetallicProp where
  | texture
  | value (x : ℚ)
deriving DecidableEq

/-- A shader property value as consumed by `_write_value`: a color
(RGB/RGBA, given by its linear components), a float, a string, a node, or
a texture object (the latter can only arrive through the `specular`
special case assigning `metallic` to the value). -/
inductive PVal where
  | vRGB (r g b : ℚ)
  | vRGBA (r g b a : ℚ)
  | vFloat (x : ℚ)
  | vStr (s : String)
  | vNode
  | vTex
deriving DecidableEq

/-- Python `str()` of a property value, used by the `f"{field} {val}"`
interpolation of the `str` branch. Only the `vStr` case is ever
load-bearing (the `str` property type carries a string). -/
def pvalStr : PVal → String
  | .vStr s => s
  | .vFloat x => floatRepr x
  | .vRGB _ _ _ => "<color>"
  | .vRGBA _ _ _ _ => "<color>"
  | .vNode => "<node>"
  | .vTex => "<texture>"

/-- Structured form of one formatted output line of `_write_value`:
a field name followed by numeric components (each rendered by the `{:.8}`
8-significant-digit format), a field name followed by a verbatim string,
or no output. -/
inductive FmtLine where
  | comps (field : String) (vals : List ℚ)
  | verbatim (field : String) (s : String)
  | empty
deriving DecidableEq

/-- Rendering of the numeric components: Python's
`f"{field} {v0:.8} {v1:.8} ..."` appends one space-separated rendered
value per component after the field name. -/
def compsStr (vals : List ℚ) : String :=
  vals.foldl (fun acc v => acc ++ " " ++ floatRepr v) ""

/-- Rendering a structured line to the string `_write_value` returns. -/
def renderFmtLine : FmtLine → String
  | .comps field vals => field ++ compsStr vals
  | .verbatim field s => field ++ " " ++ s
  | .empty => ""

/-- The low-level value formatter of `_write_value` (lines 927-943): the
`if proptype == ... / elif ... / else raise NotImplementedError` chain.
An error models a raised exception: `NotImplementedError` for an
unrecognized property type, and the AttributeError/TypeError Python would
raise when the value does not have the shape the branch expects
(`val.to_linear()` on a non-color, `"{:.8}"` on a non-float). -/
def _write_value_format (proptype field : String) (val : PVal) :
    Except String FmtLine :=
  if proptype = "RGB" then
    match val with
    | .vRGB r g b => .ok (.comps field [r, g, b])
    | _ => .error "AttributeError"
  else if proptype = "float" then
    match val with
    | .vFloat x => .ok (.comps field [x])
    | _ => .error "TypeError"
  else if proptype = "node" then .ok .empty
  else if proptype = "RGBA" then
    match val with
    | .vRGBA r g b a => .ok (.comps field [r, g, b, a])
    | _ => .error "AttributeError"
  else if proptype = "str" then .ok (.verbatim field (pvalStr val))
  else .error "NotImplementedError"

/-- The condition `hasattr(metallic, "is_texture") or float(metallic)`:
the metallic entry is a texture, or a nonzero number. -/
def metallicActive : MetallicProp → Bool
  | .texture => true
  | .value q => q ≠ 0

/-- The `metallic` entry viewed as a property value (the assignment
`val = metallic` of the `specular` special case). -/
def metallicAsVal : MetallicProp → PVal
  | .texture => .vTex
  | .value q => .vFloat q

/-- The `clearcoatgloss` inversion `val = 1 - val`. Python would raise a
TypeError on a non-float value; that combination is unreachable
(`clearcoatgloss` is a float property) and is modelled as a no-op. -/
def applyClearcoatgloss : PVal → PVal
  | .vFloat x => .vFloat (1 - x)
  | v => v

/-- The `specular` special case (lines 914-925): when a `metallic` shader
property exists and is a texture or a nonzero number, a non-positive
specular value is replaced by the metallic entry itself. Python would
raise a TypeError comparing a non-float value with 0.0; that combination
is unreachable (`specular` is a float property) and is modelled as a
no-op. -/
def applySpecular (metallic : Option MetallicProp) (val : PVal) : PVal :=
  match metallic, val with
  | some m, .vFloat x =>
      if metallicActive m then
        (if x ≤ 0 then metallicAsVal m else .vFloat x)
      else .vFloat x
  | _, v => v

/-- The special-case value rewrites of `_write_value` (lines 911-925):
`clearcoatgloss` is stored inverted, and `specular` is forced to the
`metallic` value when `metallic` is a texture or a nonzero number and the
specular value is not positive. -/
def specialCaseVal (propname : String) (metallic : Option MetallicProp)
    (val : PVal) : PVal :=
  let val := if propname = "clearcoatgloss" then applyClearcoatgloss val else val
  if propname = "specular" then applySpecular metallic val else val

/-- The keyword arguments of `_write_value`: property type and name,
shader type, property value, object name, and the `metallic` entry of the
enclosing material's shader properties (`none` models a `KeyError`). -/
structure WVArgs where
  proptype : String
  propname : String
  shadertype : String
  propvalue : PVal
  objname : String
  metallic : Option MetallicProp
deriving DecidableEq

/-- `_write_value` (lines 884-943): field-mapping exclusion first (a
`None`-mapped pair returns the empty string after a printed warning, not
modelled), then the special-case rewrites, then the low-level formatter. -/
def _write_value (args : WVArgs) : Except String String :=
  match fieldFor args.shadertype args.propname with
  | none => .ok ""
  | some field =>
      let val := specialCaseVal args.propname args.metallic args.propvalue
      (_write_value_format args.proptype field val).map renderFmtLine

/-- A scene-graph node as consumed by the two post-processing passes: the
`type` field, the optional `freecadtype` tag, and the `children` list
(whose elements are only moved around wholesale, hence modelled as plain
string payloads). -/
structure Node where
  name : String
  ntype : String
  freecadtype : Option String
  children : List String
deriving DecidableEq

/-- The `cameraToWorld` transform injected by `_render_keep1cam`. -/
structure CamXfm where
  affine : List ℚ
  linX : List ℚ
  linY : List ℚ
  linZ : List ℚ
deriving DecidableEq

/-- The top-level `camera` descriptor injected by `_render_keep1cam`. -/
structure CameraDescriptor where
  cameraIdx : Int
  cameraToWorld : CamXfm
deriving DecidableEq

/-- The identity transform literal of `_render_keep1cam` (lines 1178-1185). -/
def identityCamXfm : CamXfm :=
  { affine := [0, 0, 0], linX := [1, 0, 0], linY := [0, 1, 0], linZ := [0, 0, 1] }

/-- The scene-graph document as accessed by `render` and its two passes:
`world.children`, `lightsManager.children`, and the top-level `camera`
descriptor. -/
structure SceneGraph where
  worldChildren : List Node
  lightsManagerChildren : List String
  camera : Option CameraDescriptor
deriving DecidableEq

/-- `c.get("freecadtype") == "camera"`. -/
def isCameraNode (c : Node) : Bool := c.freecadtype = some "camera"

/-- The world-children rewriting of `_render_keep1cam` (lines 1162-1171):
collect the camera-tagged nodes in reverse order, then for each one remove
its first occurrence from the list (Python `list.remove`, i.e.
`List.erase`), reinserting the first-collected one (the last camera in
original order) at the front. The `enumerate` loop is unfolded into its
first iteration (index 0: remove then insert at front) followed by a fold
of the remaining removals. Python's `remove` raises `ValueError` when no
occurrence exists; that cannot happen here since every collected camera
occurs in the list (and `List.erase` is a no-op then). -/
def keep1camChildren (wc : List Node) : List Node :=
  match wc.reverse.filter isCameraNode with
  | [] => wc
  | cam0 :: rest => rest.foldl List.erase (cam0 :: wc.erase cam0)

/-- `_render_keep1cam` (lines 1155-1186): rewrite the world children and
unconditionally inject the top-level `camera` descriptor with
`cameraIdx = 1` and an identity `cameraToWorld`. -/
def _render_keep1cam (sg : SceneGraph) : SceneGraph :=
  { sg with
    worldChildren := keep1camChildren sg.worldChildren,
    camera := some { cameraIdx := 1, cameraToWorld := identityCamXfm } }

/-- `x["type"] == "LIGHTS"`. -/
def isLightsNode (x : Node) : Bool := x.ntype = "LIGHTS"

/-- `world_children.sort(key=lambda x: x["type"] == "LIGHTS")`: Python's
`list.sort` is stable (a documented language guarantee), and a stable sort
on a boolean key is exactly the stable partition: the `False`-keyed
(non-LIGHTS) elements in original order, followed by the `True`-keyed
(LIGHTS) elements in original order. -/
def sortLightsLast (wc : List Node) : List Node :=
  wc.filter (fun x => !isLightsNode x) ++ wc.filter isLightsNode

/-- Concatenation of the `children` of a list of nodes, in order. -/
def flatChildren : List Node → List String
  | [] => []
  | b :: bs => b.children ++ flatChildren bs

/-- The `while remaining_lightgroups(): light = world_children.pop();
lights += light["children"]` loop of `_render_mergelightgroups`
(lines 1141-1150), operating on the reversed children list (popping from
the end of a list is taking from the head of its reverse). Returns the
remaining (still reversed) children and the accumulated lights. -/
def popLightGroups : List Node → List String → List Node × List String
  | [], lights => ([], lights)
  | c :: rest, lights =>
      if isLightsNode c then popLightGroups rest (lights ++ c.children)
      else (c :: rest, lights)

/-- `_render_mergelightgroups` (lines 1130-1152): stable-sort the world
children so light groups come last, pop all trailing light groups
accumulating their children, and extend the lights manager's children
with the accumulated lights. -/
def _render_mergelightgroups (sg : SceneGraph) : SceneGraph :=
  let sorted := sortLightsLast sg.worldChildren
  let p := popLightGroups sorted.reverse []
  { sg with
    worldChildren := p.1.reverse,
    lightsManagerChildren := sg.lightsManagerChildren ++ p.2 }

/-- POSIX `os.path.join` for the cases used here (one relative or
absolute component joined to a base directory). The "starts with /" and
"ends with /" tests are expressed on the character list underlying the
string. -/
def osPathJoin (a b : String) : String :=
  if b.data.head? = some (Char.ofNat 47) then b
  else if a = "" then b
  else if a.data.getLast? = some (Char.ofNat 47) then a ++ b
  else a ++ "/" ++ b

/-- Double-quote character (written via its code point to keep string
scanning simple). -/
def QUOTE : Char := Char.ofNat 34

/-- Single-quote character. -/
def APOS : Char := Char.ofNat 39

/-- `enclose_rpath` (lines 1043-1053): enclose the renderer path in double
quotes unless it is empty or already enclosed in matching quotes. -/
def enclose_rpath (rpath : String) : String :=
  if rpath = "" then ""
  else if rpath.data.head? = some QUOTE ∧ rpath.data.getLast? = some QUOTE then rpath
  else if rpath.data.head? = some APOS ∧ rpath.data.getLast? = some APOS then rpath
  else String.singleton QUOTE ++ rpath ++ String.singleton QUOTE

/-- The user preferences read by `render` through `App.ParamGet`:
the invocation head ("Prefix"), the renderer executable path ("OspPath"),
and the extra command-line parameters ("OspParameters"). -/
structure OspPrefs where
  pfxParam : String
  ospPath : String
  ospParameters : String

/-- The arguments of `render`, with the contents of the input scene file
passed as data (`inputScene`) and `App.getUserCachePath()` as
`userCachePath`. The `pfxArg` field models the function's first string
parameter, which the source immediately shadows with the preference value
(the walrus assignment from the "Prefix" preference rebinds it), so it
never influences the result. -/
structure RenderArgs where
  pfxArg : String
  batch : Bool
  inputScene : SceneGraph
  inputFile : String
  outputFile : String
  width : Nat
  height : Nat
  spp : Nat
  denoise : Bool
  userCachePath : String

/-- The observable outcome of `render`: the transformed scene document it
writes back to the input file (this always happens, before the renderer
path is checked), whether a user-facing error was printed, and the
returned command / output-image path (`none` models Python's `None`). -/
structure RenderResult where
  sceneWritten : SceneGraph
  printedError : Bool
  cmd : Option String
  outfile : Option String

/-- `render` (lines 1012-1127): load the scene, apply the camera
deduplication and light-group merging passes, write the document back,
reconstruct the actual output file name, assemble the command-line
arguments, and either report a missing renderer path (returning
`None, None`) or return the full command and the output path. The removal
of a stale output file and the console printing are side effects without
data content and are not modelled. Truthiness tests on strings and on
`spp` are nonemptiness / nonzeroness. -/
def render (prefs : OspPrefs) (a : RenderArgs) : RenderResult :=
  let scene1 := _render_keep1cam a.inputScene
  let scene2 := _render_mergelightgroups scene1
  let outfile_for_osp := osPathJoin a.userCachePath "ospray_out"
  let outfile_actual :=
    if !a.batch then outfile_for_osp ++ ".00000.png"
    else outfile_for_osp ++ ".Camera_1.00000.png"
  let pfx := if prefs.pfxParam ≠ "" then prefs.pfxParam ++ " " else prefs.pfxParam
  let rpath := prefs.ospPath
  let args1 := if a.batch then "\"batch\" " ++ " --camera 1 " else ""
  let args2 := args1 ++ prefs.ospParameters
  let args3 := args2 ++ " --resolution " ++ toString a.width ++ "x"
      ++ toString a.height ++ " "
  let args4 :=
    if a.outputFile ≠ "" then
      args3 ++ "  --image " ++ String.singleton QUOTE ++ outfile_for_osp
        ++ String.singleton QUOTE
        ++ (if !a.batch then "  --saveImageOnExit" else "")
    else args3
  let args5 :=
    if a.spp ≠ 0 then
      args4 ++ "  --accumLimit " ++ toString a.spp ++ " --spp 1 "
    else args4
  let args6 :=
    if a.denoise then
      args5 ++ " --denoiser "
        ++ (if a.spp ≠ 0 then " --denoiseFinalFrame " else "")
    else args5
  if rpath = "" then
    { sceneWritten := scene2, printedError := true, cmd := none, outfile := none }
  else
    { sceneWritten := scene2, printedError := false,
      cmd := some (pfx ++ enclose_rpath rpath ++ " " ++ args6 ++ " "
        ++ String.singleton QUOTE ++ a.inputFile ++ String.singleton QUOTE),
      outfile := some outfile_actual }

/-- The luminous material written to the area light's MTL file. -/
structure AreaLightMtl where
  mtype : String
  color : ℚ × ℚ × ℚ
  intensity : ℚ
  transparency : ℚ
deriving DecidableEq

/-- The material part of `write_arealight` (lines 280-291): the radiance
is `power / (size_u * size_v)` further divided by 1000 (the source's
"magic number"), the transparency flag becomes 1.0 or 0.0, and the color
is the linear color. (The OBJ quad geometry written alongside is not
needed by any claim and is not modelled.) -/
def write_arealight_mtl (power size_u size_v : ℚ) (color : Color)
    (transparent : Bool) : AreaLightMtl :=
  { mtype := "luminous",
    color := (color.r, color.g, color.b),
    intensity := power / (size_u * size_v) / 1000,
    transparency := if transparent then 1 else 0 }

/-- A 3-D vector over ℝ (used for the sun-sky direction computation). -/
structure Vec3 where
  x : ℝ
  y : ℝ
  z : ℝ

/-- The FreeCAD-to-OSPRay coordinate conversion `PLACEMENT.multVec`
(matrix rows (1,0,0), (0,0,1), (0,-1,0), lines 52-54): Z-up to Y-up,
`(x, y, z) ↦ (x, z, -y)`. -/
def fcd2osp (v : Vec3) : Vec3 := ⟨v.x, v.z, -v.y⟩

/-- `math.degrees`. -/
noncomputable def degreesR (x : ℝ) : ℝ := x * 180 / Real.pi

/-- `math.atan2 y x`, modelled as the argument of the complex number
`x + y*I` (which matches `atan2` on all inputs, with value 0 at the
origin, as in Python). -/
noncomputable def atan2 (y x : ℝ) : ℝ := Complex.arg ⟨x, y⟩

/-- The data of the sun-sky light fragment emitted by `write_sunskylight`
that depends on its inputs: elevation and azimuth (in degrees), intensity,
turbidity and albedo, plus whether the sky-intensity warning is printed. -/
structure SunSkyOut where
  elevationDeg : ℝ
  azimuthDeg : ℝ
  intensity : ℝ
  turbidity : ℝ
  albedo : ℝ
  skyWarning : Prop

/-- `write_sunskylight` (lines 335-461): convert the direction to OSPRay
coordinates, compute `elevation = asin(y / |dir|)` and
`azimuth = atan2(x, z)` (emitted in degrees), set
`intensity = sun_intensity * 0.05`, and print a warning when the sky
intensity differs from 1.0 (the sky intensity has no other effect). -/
noncomputable def write_sunskylight (direction : Vec3)
    (turbidity albedo sun_intensity sky_intensity : ℝ) : SunSkyOut :=
  let d := fcd2osp direction
  { elevationDeg :=
      degreesR (Real.arcsin (d.y / Real.sqrt (d.x ^ 2 + d.y ^ 2 + d.z ^ 2))),
    azimuthDeg := degreesR (atan2 d.x d.z),
    intensity := sun_intensity * 0.05,
    turbidity := turbidity,
    albedo := albedo,
    skyWarning := sky_intensity ≠ 1.0 }

/-! Concrete fixtures used by counterexamples and witnesses. -/

/-- A default color with all linear components inside [0,1]. -/
def colorInRange : Color := ⟨1, 0, 1⟩

/-- A material-value bundle with a shader type unknown to `MATERIALS`
and an in-range default color. -/
def mvUnknown : MatVal :=
  { shadertype := "Phong", default_color := colorInRange,
    entry := fun _ => "", has_normal := false, textures := "",
    passthrough_texture := "", mixedTransparency := 0,
    submatGlass := ⟨fun _ => "", ""⟩, submatDiffuse := ⟨fun _ => "", ""⟩ }

/-- A `_write_value` argument bundle for the `""`-mapped pair
`("Disney", "subsurface")` with a float value. -/
def wvSubsurfaceCex : WVArgs :=
  { proptype := "float", propname := "subsurface", shadertype := "Disney",
    propvalue := .vFloat 2, objname := "obj", metallic := none }

/-- A camera-tagged world child. -/
def camNodeA : Node :=
  { name := "cam", ntype := "IMPORTER", freecadtype := some "camera", children := [] }

/-- A second, distinct camera-tagged world child. -/
def camNodeB : Node :=
  { name := "cam2", ntype := "IMPORTER", freecadtype := some "camera", children := [] }

/-- A world child that is not a camera and not a light group. -/
def boxNodeX : Node :=
  { name := "box", ntype := "IMPORTER", freecadtype := none, children := [] }

/-- A light-group world child with two light children. -/
def lightsNode : Node :=
  { name := "lights", ntype := "LIGHTS", freecadtype := none,
    children := ["light1", "light2"] }

/-- A scene graph containing the same camera node twice (structurally
equal duplicate entries in the parsed JSON document). -/
def sgDupCams : SceneGraph :=
  { worldChildren := [camNodeA, boxNodeX, camNodeA],
    lightsManagerChildren := [], camera := none }

/-- A scene graph with two distinct cameras around a non-camera node. -/
def sgTwoCams : SceneGraph :=
  { worldChildren := [camNodeA, boxNodeX, camNodeB],
    lightsManagerChildren := [], camera := none }

/-- A scene graph with a light group before a plain node. -/
def sgLights : SceneGraph :=
  { worldChildren := [lightsNode, boxNodeX],
    lightsManagerChildren := ["light0"], camera := none }

/-- An empty scene graph. -/
def sgEmpty : SceneGraph :=
  { worldChildren := [], lightsManagerChildren := [], camera := none }

/-- Preferences with no renderer path configured. -/
def prefsNoPath : OspPrefs :=
  { pfxParam := "", ospPath := "", ospParameters := "" }

/-- Preferences with a configured renderer path. -/
def prefsWithPath : OspPrefs :=
  { pfxParam := "", ospPath := "ospStudio", ospParameters := "" }

/-- Render arguments in batch mode. -/
def renderArgsBatch : RenderArgs :=
  { pfxArg := "", batch := true, inputScene := sgEmpty, inputFile := "scene.sg",
    outputFile := "out.png", width := 800, height := 600, spp := 32,
    denoise := false, userCachePath := "/tmp/cache" }

/-- Render arguments in interactive (non-batch) mode. -/
def renderArgsNoBatch : RenderArgs := { renderArgsBatch with batch := false }

/-- The FreeCAD "straight up" direction (+Z), which the coordinate
conversion maps to the target's +Y. -/
def dirUp : Vec3 := ⟨0, 0, 1⟩

/-! Helper lemmas. -/

/-- A lookup over a key absent from an association list yields `none`. -/
theorem lookup_eq_none_of_not_mem_keys {α β : Type _} [BEq α] [LawfulBEq α]
    (l : List (α × β)) (a : α) (h : a ∉ l.map Prod.fst) : l.lookup a = none := by
  induction l with
  | nil => rfl
  | cons e t ih =>
      obtain ⟨k, v⟩ := e
      simp only [List.map_cons, List.mem_cons, not_or] at h
      rw [List.lookup_cons]
      have hk : (a == k) = false := beq_eq_false_iff_ne.mpr h.1
      rw [hk]
      exact ih h.2

/-! C1 theorems. -/

/-- C1 counterexample: for the unknown shader type "Phong" with the
in-range default color (1, 0, 1), `_write_material` falls back as
claimed, but the `kd` components are (1, 1, 1), not the componentwise
clamp (1, 0, 1): line 598 passes the already-extracted color into the
fallback, whose re-read of `.default_color` raises AttributeError, so the
except-path constants are always used and the default color never reaches
the output. -/
theorem write_material_unknown_clamp_cex :
    ("Phong" ∉ MATERIALS.map Prod.fst) ∧
    _write_material "obj" mvUnknown
      = _write_material_fallback "obj" (.colorLike colorInRange) ∧
    fallback_rgb (.colorLike colorInRange) = (1, 1, 1) ∧
    fallback_rgb_clamped colorInRange = (1, 0, 1) ∧
    fallback_rgb (.colorLike colorInRange) ≠ fallback_rgb_clamped colorInRange := by
  refine ⟨by decide, rfl, by decide, by decide, by decide⟩

/-- C1 (amended): for every material-value bundle whose shader type is not
a key of `MATERIALS`, `_write_material` never raises and returns the
fallback diffuse template ('type obj' with a `kd` line); its `kd`
components are always (1, 1, 1) — trivially within [0,1] — irrespective
of the material's default color, because the fallback receives the
extracted color and its `default_color` attribute read fails. -/
theorem write_material_unknown_spec (name : String) (mv : MatVal)
    (h : mv.shadertype ∉ MATERIALS.map Prod.fst) :
    _write_material name mv
        = _write_material_fallback name (.colorLike mv.default_color) ∧
    fallback_rgb (.colorLike mv.default_color) = (1, 1, 1) ∧
    _write_material name mv
        = "\n# Fallback\ntype obj\nkd " ++ floatRepr 1 ++ " " ++ floatRepr 1
            ++ " " ++ floatRepr 1 ++ "\nns 2\n" := by
  have h1 : _write_material name mv
      = _write_material_fallback name (.colorLike mv.default_color) := by
    unfold _write_material
    rw [lookup_eq_none_of_not_mem_keys _ _ h]
  exact ⟨h1, rfl, h1.trans rfl⟩

/-- C1 witness: the amended theorem evaluated on a concrete unknown-type
bundle whose default color is in range — the emitted components are still
(1, 1, 1). -/
theorem write_material_unknown_spec_witness :
    _write_material "obj" mvUnknown
      = _write_material_fallback "obj" (.colorLike mvUnknown.default_color) ∧
    fallback_rgb (.colorLike mvUnknown.default_color) = (1, 1, 1) ∧
    _write_material "obj" mvUnknown
      = "\n# Fallback\ntype obj\nkd " ++ floatRepr 1 ++ " " ++ floatRepr 1
          ++ " " ++ floatRepr 1 ++ "\nns 2\n" :=
  write_material_unknown_spec "obj" mvUnknown (by decide)

/-! C6 theorems. -/

/-- C6: the area-light luminous material's intensity is
`power / (size_u × size_v × 1000)`; in particular power 1000 on a 1×1
quad yields radiance 1, and the transparency is 1.0 for a transparent
light and 0.0 otherwise. -/
theorem write_arealight_radiance_spec (power size_u size_v : ℚ) (c : Color)
    (t : Bool) (hu : size_u ≠ 0) (hv : size_v ≠ 0) :
    (write_arealight_mtl power size_u size_v c t).intensity
        = power / (size_u * size_v * 1000) ∧
    (write_arealight_mtl 1000 1 1 c t).intensity = 1 ∧
    (write_arealight_mtl power size_u size_v c true).transparency = 1 ∧
    (write_arealight_mtl power size_u size_v c false).transparency = 0 := by
  refine ⟨?_, ?_, rfl, rfl⟩
  · unfold write_arealight_mtl
    exact div_div power (size_u * size_v) 1000
  · norm_num [write_arealight_mtl]

/-- C6 witness: the radiance theorem evaluated at power 1000 and a 1×1
quad, transparent. -/
theorem write_arealight_radiance_spec_witness :
    (write_arealight_mtl 1000 1 1 colorInRange true).intensity
        = 1000 / (1 * 1 * 1000) ∧
    (write_arealight_mtl 1000 1 1 colorInRange true).intensity = 1 ∧
    (write_arealight_mtl 1000 1 1 colorInRange true).transparency = 1 := by
  have h := write_arealight_radiance_spec 1000 1 1 colorInRange true
    (by norm_num) (by norm_num)
  exact ⟨h.1, h.2.1, h.2.2.1⟩

/-! C9 theorems. -/

/-- C9: when no renderer executable path is configured, `render` reports
a user-facing error and returns no command. -/
theorem render_no_rpath_spec (prefs : OspPrefs) (a : RenderArgs)
    (h : prefs.ospPath = "") :
    (render prefs a).printedError = true ∧ (render prefs a).cmd = none := by
  unfold render
  simp [h]

/-- C9 witness: the missing-path theorem evaluated on concrete inputs. -/
theorem render_no_rpath_spec_witness :
    (render prefsNoPath renderArgsBatch).printedError = true ∧
    (render prefsNoPath renderArgsBatch).cmd = none :=
  render_no_rpath_spec prefsNoPath renderArgsBatch rfl

/-! C10 theorems. -/

/-- C10: `render` always writes the document obtained by applying the
camera-deduplication pass and then the light-group merging pass back to
the input file, whether or not a renderer path is configured; when the
path is missing it still performs that write and then returns no command
(the abort is not atomic with respect to the scene file). -/
theorem render_writes_scene_spec (prefs : OspPrefs) (a : RenderArgs) :
    (render prefs a).sceneWritten
        = _render_mergelightgroups (_render_keep1cam a.inputScene) ∧
    (prefs.ospPath = "" → (render prefs a).cmd = none) := by
  unfold render
  by_cases h : prefs.ospPath = "" <;> simp [h]

/-- C10 witness: on a concrete scene with no renderer path configured,
the file content written back differs from the input scene (the camera
descriptor has been injected) although no command is returned. -/
theorem render_writes_scene_spec_witness :
    (render prefsNoPath renderArgsBatch).sceneWritten
        = _render_mergelightgroups (_render_keep1cam renderArgsBatch.inputScene) ∧
    (render prefsNoPath renderArgsBatch).cmd = none ∧
    (render prefsNoPath renderArgsBatch).sceneWritten
        ≠ renderArgsBatch.inputScene := by
  have h := render_writes_scene_spec prefsNoPath renderArgsBatch
  refine ⟨h.1, h.2 rfl, ?_⟩
  rw [h.1]
  decide

/-! C5 theorems. -/

/-- Appending a suffix to a joined path is joining the suffixed name,
for a relative component. -/
theorem osPathJoin_append (cache s t : String)
    (hs : s.data.head? ≠ some (Char.ofNat 47))
    (hst : (s ++ t).data.head? ≠ some (Char.ofNat 47)) :
    osPathJoin cache s ++ t = osPathJoin cache (s ++ t) := by
  unfold osPathJoin
  rw [if_neg hs, if_neg hst]
  split_ifs <;> simp [String.append_assoc]

/-- C5: with a configured renderer path, the output image path returned
by `render` is the user cache directory joined with
"ospray_out.Camera_1.00000.png" in batch mode and with
"ospray_out.00000.png" in interactive mode. -/
theorem render_outfile_spec (prefs : OspPrefs) (a : RenderArgs)
    (h : prefs.ospPath ≠ "") :
    (a.batch = true →
      (render prefs a).outfile
        = some (osPathJoin a.userCachePath "ospray_out.Camera_1.00000.png")) ∧
    (a.batch = false →
      (render prefs a).outfile
        = some (osPathJoin a.userCachePath "ospray_out.00000.png")) := by
  have e1 : osPathJoin a.userCachePath "ospray_out" ++ ".Camera_1.00000.png"
      = osPathJoin a.userCachePath "ospray_out.Camera_1.00000.png" := by
    have e := osPathJoin_append a.userCachePath "ospray_out" ".Camera_1.00000.png"
      (by decide) (by decide)
    rw [show ("ospray_out" ++ ".Camera_1.00000.png" : String)
        = "ospray_out.Camera_1.00000.png" from rfl] at e
    exact e
  have e2 : osPathJoin a.userCachePath "ospray_out" ++ ".00000.png"
      = osPathJoin a.userCachePath "ospray_out.00000.png" := by
    have e := osPathJoin_append a.userCachePath "ospray_out" ".00000.png"
      (by decide) (by decide)
    rw [show ("ospray_out" ++ ".00000.png" : String)
        = "ospray_out.00000.png" from rfl] at e
    exact e
  constructor <;> intro hb <;>
    · unfold render
      simp [h, hb, e1, e2]

/-- C5 witness: the output-path theorem evaluated on concrete batch and
interactive calls. -/
theorem render_outfile_spec_witness :
    (render prefsWithPath renderArgsBatch).outfile
        = some (osPathJoin "/tmp/cache" "ospray_out.Camera_1.00000.png") ∧
    (render prefsWithPath renderArgsNoBatch).outfile
        = some (osPathJoin "/tmp/cache" "ospray_out.00000.png") :=
  ⟨(render_outfile_spec prefsWithPath renderArgsBatch (by decide)).1 rfl,
   (render_outfile_spec prefsWithPath renderArgsNoBatch (by decide)).2 rfl⟩

/-! C8 theorems. -/

/-- C8: the low-level value formatter branches on the property type: RGB
yields the field followed by the 3 linear components, RGBA 4, float 1,
str the value verbatim, node the empty output, and every other property
type is a fatal error (NotImplementedError). -/
theorem write_value_format_spec :
    (∀ f r g b, _write_value_format "RGB" f (.vRGB r g b)
        = .ok (.comps f [r, g, b])) ∧
    (∀ f r g b a, _write_value_format "RGBA" f (.vRGBA r g b a)
        = .ok (.comps f [r, g, b, a])) ∧
    (∀ f x, _write_value_format "float" f (.vFloat x) = .ok (.comps f [x])) ∧
    (∀ f s, _write_value_format "str" f (.vStr s) = .ok (.verbatim f s)) ∧
    (∀ f v, _write_value_format "node" f v = .ok .empty) ∧
    (∀ pt f v, pt ∉ (["RGB", "float", "node", "RGBA", "str"] : List String) →
      _write_value_format pt f v = .error "NotImplementedError") := by
  refine ⟨fun f r g b => rfl, fun f r g b a => rfl, fun f x => rfl,
    fun f s => rfl, fun f v => rfl, ?_⟩
  intro pt f v h
  simp only [List.mem_cons, List.not_mem_nil, or_false, not_or] at h
  obtain ⟨h1, h2, h3, h4, h5⟩ := h
  simp [_write_value_format, h1, h2, h3, h4, h5]

/-- C8 witness: the formatter theorem evaluated at the out-of-range
property type "texonly". -/
theorem write_value_format_spec_witness :
    _write_value_format "texonly" "kd" (.vFloat 1)
      = .error "NotImplementedError" :=
  write_value_format_spec.2.2.2.2.2 "texonly" "kd" (.vFloat 1) (by decide)

/-! C2 theorems. -/

/-- C2 counterexample: the pair ("Disney", "subsurface") is mapped to the
empty string, yet `_write_value` on a float value 2 for it does not omit
the line: it emits the formatted value with an empty field name (a line
consisting of a space and the value), which is not the empty output. -/
theorem field_mapping_empty_cex :
    lookupFM "Disney" "subsurface" = some (some "") ∧
    _write_value wvSubsurfaceCex = .ok (" " ++ floatRepr 2) ∧
    (" " ++ floatRepr 2) ≠ "" := by
  exact ⟨by decide, rfl,
    fun h => List.cons_ne_nil _ (floatRepr 2).data (congrArg String.data h)⟩

/-- C2 (amended): a (shadertype, propname) pair absent from
`_FIELD_MAPPING` keeps the property name as field name; a pair mapped to
`None` produces no output at all from `_write_value`; and a pair mapped
to the empty string has the empty string substituted as field name, so
the formatted value is still emitted (preceded by a space) rather than
omitted. -/
theorem field_mapping_spec :
    (∀ s p, lookupFM s p = none → fieldFor s p = some p) ∧
    (∀ args : WVArgs, lookupFM args.shadertype args.propname = some none →
      _write_value args = .ok "") ∧
    (∀ s p x o m, lookupFM s p = none → p ≠ "clearcoatgloss" → p ≠ "specular" →
      _write_value ⟨"float", p, s, .vFloat x, o, m⟩
        = .ok (p ++ (" " ++ floatRepr x))) ∧
    (∀ s p x o m, lookupFM s p = some (some "") →
      p ≠ "clearcoatgloss" → p ≠ "specular" →
      _write_value ⟨"float", p, s, .vFloat x, o, m⟩
        = .ok (" " ++ floatRepr x)) := by
  refine ⟨?_, ?_, ?_, ?_⟩
  · intro s p h
    simp [fieldFor, h]
  · intro args h
    simp [_write_value, fieldFor, h]
  · intro s p x o m h hc hs
    have hf : fieldFor s p = some p := by simp [fieldFor, h]
    have hv : specialCaseVal p m (.vFloat x) = .vFloat x := by
      simp [specialCaseVal, hc, hs]
    simp only [_write_value, hf, hv]
    rfl
  · intro s p x o m h hc hs
    have hf : fieldFor s p = some "" := by simp [fieldFor, h]
    have hv : specialCaseVal p m (.vFloat x) = .vFloat x := by
      simp [specialCaseVal, hc, hs]
    simp only [_write_value, hf, hv]
    rfl

/-- C2 witness: the field-mapping theorem evaluated on the `None`-mapped
pair ("Diffuse", "bump") and the unmapped pair ("Diffuse", "roughness"). -/
theorem field_mapping_spec_witness :
    _write_value ⟨"float", "bump", "Diffuse", .vFloat 1, "obj", none⟩
      = .ok "" ∧
    _write_value ⟨"float", "roughness", "Diffuse", .vFloat 1, "obj", none⟩
      = .ok ("roughness" ++ (" " ++ floatRepr 1)) :=
  ⟨field_mapping_spec.2.1 ⟨"float", "bump", "Diffuse", .vFloat 1, "obj", none⟩
      (by decide),
   field_mapping_spec.2.2.1 "Diffuse" "roughness" 1 "obj" none (by decide)
      (by decide) (by decide)⟩

/-! C4 theorems. -/

/-- Popping a block of light groups off the (reversed) children list
accumulates exactly their concatenated children and stops at the first
non-light node. -/
theorem popLightGroups_append (bs : List Node) :
    ∀ (l : List Node) (acc : List String),
      (∀ b ∈ bs, isLightsNode b = true) →
      (l = [] ∨ ∃ h t, l = h :: t ∧ isLightsNode h = false) →
      popLightGroups (bs ++ l) acc = (l, acc ++ flatChildren bs) := by
  induction bs with
  | nil =>
      intro l acc _ hl
      rcases hl with rfl | ⟨h, t, rfl, hh⟩
      · simp [popLightGroups, flatChildren]
      · simp [popLightGroups, hh, flatChildren]
  | cons b bs ih =>
      intro l acc hbs hl
      have hb : isLightsNode b = true := hbs b (by simp)
      simp only [List.cons_append, popLightGroups, hb, if_true]
      rw [List.append_eq, ih l (acc ++ b.children) (fun x hx => hbs x (by simp [hx])) hl]
      simp [flatChildren, List.append_assoc]

/-- The children of any member node are contained in the concatenation of
all the children. -/
theorem children_subset_flatChildren (bs : List Node) (n : Node)
    (hn : n ∈ bs) : ∀ c ∈ n.children, c ∈ flatChildren bs := by
  induction bs with
  | nil => cases hn
  | cons b bs ih =>
      intro c hc
      rcases List.mem_cons.mp hn with rfl | hn'
      · exact List.mem_append_left _ hc
      · exact List.mem_append_right _ (ih hn' c hc)

/-- C4: after the light-group flattening pass, the world children are
exactly the non-LIGHTS children in their original relative order (the
stable sort on the boolean key preserves it), so no LIGHTS-typed node
remains under world, and every child of every LIGHTS-typed world node has
become a child of the lights manager. -/
theorem mergelightgroups_spec (sg : SceneGraph) :
    (_render_mergelightgroups sg).worldChildren
        = sg.worldChildren.filter (fun x => !isLightsNode x) ∧
    (∀ n ∈ (_render_mergelightgroups sg).worldChildren, isLightsNode n = false) ∧
    (∀ n ∈ sg.worldChildren, isLightsNode n = true →
      ∀ c ∈ n.children, c ∈ (_render_mergelightgroups sg).lightsManagerChildren) := by
  set A := sg.worldChildren.filter (fun x => !isLightsNode x) with hA
  set B := sg.worldChildren.filter isLightsNode with hB
  have hrev : (sortLightsLast sg.worldChildren).reverse = B.reverse ++ A.reverse := by
    simp [sortLightsLast, List.reverse_append, hA, hB]
  have hBlights : ∀ b ∈ B.reverse, isLightsNode b = true := by
    intro b hb
    exact List.of_mem_filter (List.mem_reverse.mp hb)
  have hAstop : A.reverse = []
      ∨ ∃ h t, A.reverse = h :: t ∧ isLightsNode h = false := by
    cases hAr : A.reverse with
    | nil => exact Or.inl rfl
    | cons h t =>
        refine Or.inr ⟨h, t, rfl, ?_⟩
        have : h ∈ A := List.mem_reverse.mp (hAr ▸ List.mem_cons_self h t)
        have := List.of_mem_filter this
        simpa using this
  have hpop : popLightGroups (sortLightsLast sg.worldChildren).reverse []
      = (A.reverse, [] ++ flatChildren B.reverse) := by
    rw [hrev]
    exact popLightGroups_append B.reverse A.reverse [] hBlights hAstop
  have hres : (_render_mergelightgroups sg).worldChildren = A ∧
      (_render_mergelightgroups sg).lightsManagerChildren
        = sg.lightsManagerChildren ++ flatChildren B.reverse := by
    simp only [_render_mergelightgroups]
    rw [hpop]
    simp
  refine ⟨hres.1, ?_, ?_⟩
  · intro n hn
    rw [hres.1] at hn
    have := List.of_mem_filter hn
    simpa using this
  · intro n hn hlights c hc
    rw [hres.2]
    refine List.mem_append_right _ ?_
    have hnB : n ∈ B.reverse :=
      List.mem_reverse.mpr (List.mem_filter.mpr ⟨hn, hlights⟩)
    exact children_subset_flatChildren B.reverse n hnB c hc

/-- C4 witness: the flattening theorem evaluated on a concrete scene with
one light group of two lights before a plain node. -/
theorem mergelightgroups_spec_witness :
    (_render_mergelightgroups sgLights).worldChildren = [boxNodeX] ∧
    isLightsNode lightsNode = true ∧
    "light1" ∈ (_render_mergelightgroups sgLights).lightsManagerChildren ∧
    "light2" ∈ (_render_mergelightgroups sgLights).lightsManagerChildren := by
  have h := mergelightgroups_spec sgLights
  refine ⟨h.1.trans (by decide), by decide, ?_, ?_⟩
  · exact h.2.2 lightsNode (by decide) (by decide) "light1" (by decide)
  · exact h.2.2 lightsNode (by decide) (by decide) "light2" (by decide)

/-! C3 theorems. -/

/-- Folding `List.erase` over elements distinct from the head keeps the
head in place. -/
theorem foldl_erase_cons {α : Type _} [DecidableEq α] (rs : List α) :
    ∀ (l : List α) (c : α), c ∉ rs →
      rs.foldl List.erase (c :: l) = c :: rs.foldl List.erase l := by
  induction rs with
  | nil => intro l c _; rfl
  | cons r rs ih =>
      intro l c hc
      simp only [List.mem_cons, not_or] at hc
      simp only [List.foldl_cons]
      rw [List.erase_cons_tail (by simp [hc.1])]
      exact ih _ _ hc.2

/-- Occurrence count in a list difference. -/
theorem count_list_diff {α : Type _} [DecidableEq α] (a : α) (l₂ : List α) :
    ∀ l₁ : List α, (l₁.diff l₂).count a = l₁.count a - l₂.count a := by
  induction l₂ with
  | nil => intro l₁; simp [List.diff]
  | cons b t ih =>
      intro l₁
      rw [List.diff_cons, ih, List.count_cons]
      by_cases h : a = b
      · subst h
        rw [List.count_erase_self]
        simp only [beq_self_eq_true, if_pos]
        omega
      · rw [List.count_erase_of_ne h]
        have hba : (b == a) = false := by simp [Ne.symm h]
        rw [hba]
        simp

/-- C3 counterexample: a scene whose world children contain the same
camera node twice around a non-camera node. After the pass exactly one
camera remains, but it is not positioned first: `list.remove` removes the
first structurally-equal occurrence, so the reinserted front camera is
itself removed by the second loop iteration. -/
theorem keep1cam_duplicate_cex :
    (sgDupCams.worldChildren.filter isCameraNode ≠ []) ∧
    (_render_keep1cam sgDupCams).worldChildren = [boxNodeX, camNodeA] ∧
    ((_render_keep1cam sgDupCams).worldChildren.head?.map isCameraNode
      ≠ some true) := by
  refine ⟨by decide, by decide, by decide⟩

/-- C3 (amended): for a scene graph whose world children contain at least
one camera-tagged node, no two of them structurally equal, the pass
leaves exactly one camera-tagged node among the world children — the last
camera in the original order — positioned first in the list, and injects
the top-level camera descriptor with `cameraIdx = 1` and an identity
transform. (With structurally-equal duplicate cameras, the "positioned
first" part can fail, see the counterexample.) -/
theorem keep1cam_spec (sg : SceneGraph)
    (hcam : sg.worldChildren.filter isCameraNode ≠ [])
    (hnd : (sg.worldChildren.filter isCameraNode).Nodup) :
    ∃ cam, (sg.worldChildren.filter isCameraNode).getLast? = some cam ∧
      (_render_keep1cam sg).worldChildren.filter isCameraNode = [cam] ∧
      (_render_keep1cam sg).worldChildren.head? = some cam ∧
      (_render_keep1cam sg).camera
        = some { cameraIdx := 1, cameraToWorld := identityCamXfm } := by
  set l := sg.worldChildren with hl
  set F := l.filter isCameraNode with hF
  have hFr : l.reverse.filter isCameraNode = F.reverse := List.filter_reverse _ _
  obtain ⟨c0, D, hFD⟩ : ∃ c0 D, F.reverse = c0 :: D := by
    cases hFrev : F.reverse with
    | nil =>
        have : F = [] := by simpa using congrArg List.reverse hFrev
        exact absurd this hcam
    | cons c0 D => exact ⟨c0, D, rfl⟩
  have hFD' : F = D.reverse ++ [c0] := by
    have := congrArg List.reverse hFD
    simpa using this
  have hlast : F.getLast? = some c0 := by
    rw [hFD']
    simp
  have hndr : (c0 :: D).Nodup := by
    rw [← hFD]
    exact List.nodup_reverse.mpr hnd
  have hc0D : c0 ∉ D := (List.nodup_cons.mp hndr).1
  have hres : (_render_keep1cam sg).worldChildren
      = c0 :: D.foldl List.erase (l.erase c0) := by
    show keep1camChildren l = _
    unfold keep1camChildren
    rw [hFr, hFD]
    exact foldl_erase_cons D _ c0 hc0D
  set T := D.foldl List.erase (l.erase c0) with hT
  have hTdiff : T = (l.erase c0).diff D := (List.diff_eq_foldl _ _).symm
  have hc0cam : isCameraNode c0 = true := by
    have hc0F : c0 ∈ F := by
      rw [hFD']
      exact List.mem_append_right _ (by simp)
    exact List.of_mem_filter hc0F
  have hTnocam : ∀ x ∈ T, ¬ isCameraNode x = true := by
    intro x hxT hxcam
    have hxl : x ∈ l := by
      have hx1 : x ∈ (l.erase c0).diff D := hTdiff ▸ hxT
      exact List.erase_subset _ _ (List.diff_subset _ _ hx1)
    have hxF : x ∈ F := List.mem_filter.mpr ⟨hxl, hxcam⟩
    have hcount_le : F.count x ≤ 1 := List.nodup_iff_count_le_one.mp hnd x
    have hcountF : F.count x = l.count x := List.count_filter hxcam
    have hcpos : 0 < F.count x := List.count_pos_iff.mpr hxF
    have hTx : T.count x = 0 := by
      rw [hTdiff, count_list_diff]
      by_cases hx0 : x = c0
      · subst hx0
        rw [List.count_erase_self]
        omega
      · rw [List.count_erase_of_ne hx0]
        have hxD : x ∈ D := by
          rw [hFD'] at hxF
          rcases List.mem_append.mp hxF with hxd | hxc
          · exact List.mem_reverse.mp hxd
          · exact absurd (by simpa using hxc) hx0
        have : 0 < D.count x := List.count_pos_iff.mpr hxD
        omega
    have : 0 < T.count x := List.count_pos_iff.mpr hxT
    omega
  refine ⟨c0, hlast, ?_, ?_, rfl⟩
  · rw [hres]
    simp only [List.filter_cons, hc0cam, if_pos]
    rw [List.filter_eq_nil_iff.mpr hTnocam]
  · rw [hres]
    rfl

/-- C3 witness: the amended theorem evaluated on a scene with two
distinct cameras around a non-camera node. -/
theorem keep1cam_spec_witness :
    (_render_keep1cam sgTwoCams).worldChildren.filter isCameraNode = [camNodeB] ∧
    (_render_keep1cam sgTwoCams).worldChildren.head? = some camNodeB ∧
    (_render_keep1cam sgTwoCams).camera
      = some { cameraIdx := 1, cameraToWorld := identityCamXfm } := by
  obtain ⟨cam, hlast, h1, h2, h3⟩ := keep1cam_spec sgTwoCams (by decide) (by decide)
  have hcam : cam = camNodeB := by
    have : (sgTwoCams.worldChildren.filter isCameraNode).getLast? = some camNodeB := by
      decide
    rw [this] at hlast
    exact (Option.some.inj hlast).symm
  subst hcam
  exact ⟨h1, h2, h3⟩

/-! C7 theorems. -/

/-- C7: the emitted sun-sky fragment's elevation is
`asin(y / |dir|)` and its azimuth `atan2(x, z)` of the coordinate-converted
direction, both in degrees; its intensity is `sun_intensity × 0.05`; the
sky-intensity warning fires exactly when it differs from 1.0 and the value
has no effect on the emitted fields; and a direction converting to target
+Y gives elevation 90° and azimuth 0°. -/
theorem write_sunskylight_spec (direction : Vec3)
    (turbidity albedo sun sky : ℝ) :
    (write_sunskylight direction turbidity albedo sun sky).elevationDeg
        = degreesR (Real.arcsin ((fcd2osp direction).y /
            Real.sqrt ((fcd2osp direction).x ^ 2 + (fcd2osp direction).y ^ 2
              + (fcd2osp direction).z ^ 2))) ∧
    (write_sunskylight direction turbidity albedo sun sky).azimuthDeg
        = degreesR (atan2 (fcd2osp direction).x (fcd2osp direction).z) ∧
    (write_sunskylight direction turbidity albedo sun sky).intensity
        = sun * 0.05 ∧
    (sky ≠ 1.0 → (write_sunskylight direction turbidity albedo sun sky).skyWarning) ∧
    (∀ sky₂,
      (write_sunskylight direction turbidity albedo sun sky₂).elevationDeg
          = (write_sunskylight direction turbidity albedo sun sky).elevationDeg ∧
      (write_sunskylight direction turbidity albedo sun sky₂).azimuthDeg
          = (write_sunskylight direction turbidity albedo sun sky).azimuthDeg ∧
      (write_sunskylight direction turbidity albedo sun sky₂).intensity
          = (write_sunskylight direction turbidity albedo sun sky).intensity) ∧
    (fcd2osp direction = ⟨0, 1, 0⟩ →
      (write_sunskylight direction turbidity albedo sun sky).elevationDeg = 90 ∧
      (write_sunskylight direction turbidity albedo sun sky).azimuthDeg = 0) := by
  refine ⟨rfl, rfl, rfl, fun h => h, fun sky₂ => ⟨rfl, rfl, rfl⟩, ?_⟩
  intro h
  constructor
  · show degreesR (Real.arcsin ((fcd2osp direction).y /
        Real.sqrt ((fcd2osp direction).x ^ 2 + (fcd2osp direction).y ^ 2
          + (fcd2osp direction).z ^ 2))) = 90
    rw [h]
    norm_num [Real.sqrt_one, Real.arcsin_one, degreesR]
    field_simp
    ring
  · show degreesR (atan2 (fcd2osp direction).x (fcd2osp direction).z) = 0
    rw [h]
    have hz : (⟨0, 0⟩ : ℂ) = 0 := Complex.ext rfl rfl
    simp [atan2, degreesR, hz, Complex.arg_zero]

/-- C7 witness: the sun-sky theorem evaluated on the FreeCAD up direction
(+Z, converting to target +Y) with sun intensity 3 and sky intensity 2. -/
theorem write_sunskylight_spec_witness :
    (write_sunskylight dirUp 2 (1/2) 3 2).elevationDeg = 90 ∧
    (write_sunskylight dirUp 2 (1/2) 3 2).azimuthDeg = 0 ∧
    (write_sunskylight dirUp 2 (1/2) 3 2).intensity = 3 * 0.05 ∧
    (write_sunskylight dirUp 2 (1/2) 3 2).skyWarning := by
  obtain ⟨-, -, hint, hwarn, -, hinst⟩ := write_sunskylight_spec dirUp 2 (1/2) 3 2
  have hd : fcd2osp dirUp = ⟨0, 1, 0⟩ := by
    simp [fcd2osp, dirUp]
  exact ⟨(hinst hd).1, (hinst hd).2, hint, hwarn (by norm_num)⟩

end Ospray
